import Mathlib

/-!
Shallow embedding of the element-capture compositor from
src/get_watchlist_data.py (function capture_element_full, lines 88-166),
together with proofs of the specification claims about it.

The pure tiling arithmetic (tile-offset loop, per-tile crop/paste
geometry) is embedded as executable functions on integers; the effectful
part (driver calls, window resizing, scrolling, screenshots, file saves)
is embedded as explicit state passing over a browser-state record with an
event trace, with driver-call outcomes supplied by oracles in a `Driver`
record.  Machine floats of the geometry query are modelled as rationals.
-/

namespace TradingView

/-- Truncation toward zero, as Python's int() applied to a numeric value. -/
def pyInt (q : ℚ) : ℤ := if q < 0 then ⌈q⌉ else ⌊q⌋

/-- Result of the single geometry query (getBoundingClientRect plus scroll
position and document/viewport sizes), with possibly fractional values
(line 98 of the source). -/
structure Metrics where
  left : ℚ
  top : ℚ
  width : ℚ
  height : ℚ
  scrollY : ℚ
  docHeight : ℚ
  docWidth : ℚ
  viewportHeight : ℚ
  viewportWidth : ℚ

/-- elem_top = int(metrics["top"] + metrics["scrollY"]) (line 103). -/
def elemTop (m : Metrics) : ℤ := pyInt (m.top + m.scrollY)

/-- elem_left = int(metrics["left"]) (line 104). -/
def elemLeft (m : Metrics) : ℤ := pyInt m.left

/-- elem_width = int(math.ceil(metrics["width"])) (line 105). -/
def elemWidth (m : Metrics) : ℤ := ⌈m.width⌉

/-- elem_height = int(math.ceil(metrics["height"])) (line 106). -/
def elemHeight (m : Metrics) : ℤ := ⌈m.height⌉

/-- doc_height = int(metrics["docHeight"]) (line 107). -/
def docHeightI (m : Metrics) : ℤ := pyInt m.docHeight

/-- doc_width = int(metrics["docWidth"]) (line 108). -/
def docWidthI (m : Metrics) : ℤ := pyInt m.docWidth

/-- viewport_h = int(metrics["viewportHeight"]) (line 127). -/
def viewportH (m : Metrics) : ℤ := pyInt m.viewportHeight

/-- The tile-offset while loop (lines 136-138 of the source:
`while y < end_y: tiles.append(y); y += viewport_h`), with explicit fuel
bounding the number of iterations still permitted. -/
def tilesLoop : ℕ → ℤ → ℤ → ℤ → List ℤ
  | 0, _, _, _ => []
  | fuel + 1, y, endY, v => if y < endY then y :: tilesLoop fuel (y + v) endY v else []

/-- y = max(0, start_y - (start_y % viewport_h)) (line 135); Python's %
on integers is Int.fmod (remainder with the sign of the divisor). -/
def tileStart (startY v : ℤ) : ℤ := max 0 (startY - startY.fmod v)

/-- Tile offsets generated by the tiled path for element top T, element
height H and viewport height V.  The fuel (end_y - first y) is enough
whenever 1 ≤ V, because each iteration advances y by V. -/
def tilesAux (T H V : ℤ) : List ℤ :=
  tilesLoop (T + H - tileStart T V).toNat (tileStart T V) (T + H) V

/-- The tile offsets of the tiled path, derived from the metrics. -/
def tiles (m : Metrics) : List ℤ := tilesAux (elemTop m) (elemHeight m) (viewportH m)

/-- Crop/paste geometry of one tile (lines 148-158 of the source): none
when the tile is skipped (crop_bottom <= crop_top), otherwise
(paste_y, crop_bottom - crop_top), the destination row interval start and
height of the pasted slice. -/
def tileDest (T H V t : ℤ) : Option (ℤ × ℤ) :=
  let rel_top := T - t
  let crop_top := max 0 rel_top
  let crop_bottom := min V (rel_top + H)
  if crop_bottom ≤ crop_top then none
  else some (max 0 (t - T), crop_bottom - crop_top)

/-- Whether the slice pasted for tile offset t writes canvas row r. -/
def coversRow (T H V t r : ℤ) : Bool :=
  match tileDest T H V t with
  | none => false
  | some p => decide (p.1 ≤ r ∧ r < p.1 + p.2)

/-- The tile-offset sequence exactly as claim C3 words it: start at the
largest multiple of V that is ≤ T (V * (T / V) for positive V), step by V,
and include, as last element, the first offset that is ≥ B. -/
def claimedTilesLoop : ℕ → ℤ → ℤ → ℤ → List ℤ
  | 0, _, _, _ => []
  | fuel + 1, y, endB, v =>
    if y < endB then y :: claimedTilesLoop fuel (y + v) endB v else [y]

/-- Sequence of claim C3 (inclusive stopping offset) at viewport height V,
element top T, element bottom B. -/
def claimedTiles (V T B : ℤ) : List ℤ :=
  claimedTilesLoop ((B - V * (T / V)).toNat + 1) (V * (T / V)) B V

/-- The amended sequence: same start (largest multiple of V ≤ T) and step,
but the first offset that is ≥ B is not emitted. -/
def specTiles (V T B : ℤ) : List ℤ :=
  tilesLoop (B - V * (T / V)).toNat (V * (T / V)) B V

/-! ## Effectful embedding of capture_element_full -/

/-- Observable driver/page effects, recorded in the state trace. -/
inductive Event
  | waitElement
  | queryMetrics
  | setWindow (w h : ℤ)
  | screenshot
  | scroll (y : ℤ)
  | save (path : String)
deriving DecidableEq

/-- A PIL image, modelled by its pixel dimensions (the claims are about
dimensions and destination-row placement, never pixel colors). -/
structure Image where
  width : ℤ
  height : ℤ
deriving DecidableEq

/-- Errors a capture call can raise. RuntimeError("Failed to capture
element by tiled stitching") is stitchFailed; the element-wait timeout is
elementNotFound; driver/PIL failures are the remaining constructors. -/
inductive CaptureError
  | elementNotFound
  | screenshotFailed
  | saveFailed
  | stitchFailed
  | invalidImageOp
  | zeroDivision
deriving DecidableEq

/-- Mutable browser/filesystem state threaded through a capture call. -/
structure BrowserState where
  windowWidth : ℤ
  windowHeight : ℤ
  scrollPos : ℤ
  files : String → Option Image
  shotCount : ℕ
  saveCount : ℕ
  trace : List Event

/-- The driver as an oracle: whether the locator resolves within the
timeout, the geometry-query result, and per-call success of screenshots
and file saves (indexed by how many such calls happened before). -/
structure Driver where
  elementFound : Bool
  metrics : Metrics
  screenshotOk : ℕ → Bool
  saveOk : ℕ → Bool

/-- driver.set_window_size(w, h). -/
def setWindow (st : BrowserState) (w h : ℤ) : BrowserState :=
  { st with windowWidth := w, windowHeight := h, trace := Event.setWindow w h :: st.trace }

/-- driver.execute_script("window.scrollTo(0, y)"). -/
def scrollTo (st : BrowserState) (y : ℤ) : BrowserState :=
  { st with scrollPos := y, trace := Event.scroll y :: st.trace }

/-- driver.get_screenshot_as_png() followed by Image.open(...).convert:
yields a viewport-sized pixel buffer, or raises when the driver fails. -/
def getScreenshot (d : Driver) (st : BrowserState) : BrowserState × Except CaptureError Image :=
  let st1 := { st with shotCount := st.shotCount + 1, trace := Event.screenshot :: st.trace }
  if d.screenshotOk st.shotCount then (st1, .ok ⟨st.windowWidth, st.windowHeight⟩)
  else (st1, .error .screenshotFailed)

/-- img.save(path): writes the file, or raises when the sink fails. -/
def saveImage (d : Driver) (st : BrowserState) (path : String) (img : Image) :
    BrowserState × Except CaptureError Unit :=
  let st1 := { st with saveCount := st.saveCount + 1, trace := Event.save path :: st.trace }
  if d.saveOk st.saveCount then
    ({ st1 with files := fun p => if p = path then some img else st.files p }, .ok ())
  else (st1, .error .saveFailed)

/-- Image.new("RGB", (w, h)): PIL raises on negative dimensions. -/
def pilNew (w h : ℤ) : Except CaptureError Image :=
  if 0 ≤ w ∧ 0 ≤ h then .ok ⟨w, h⟩ else .error .invalidImageOp

/-- img.crop((l, t, r, b)): always returns an (r-l) × (b-t) buffer
(padding outside the source), and raises when r < l or b < t. -/
def pilCrop (_img : Image) (l t r b : ℤ) : Except CaptureError Image :=
  if l ≤ r ∧ t ≤ b then .ok ⟨r - l, b - t⟩ else .error .invalidImageOp

/-- The per-tile loop of the tiled path (lines 142-160): scroll, settle,
screenshot, compute the visible slice, skip empty slices, otherwise crop
and paste (pasting never changes the canvas dimensions) and record that
something was pasted. -/
def tiledLoop (d : Driver) (elem_left elem_top elem_width elem_height viewport_h : ℤ) :
    List ℤ → BrowserState → Bool → BrowserState × Except CaptureError Bool
  | [], st, pasted => (st, .ok pasted)
  | scroll_y :: rest, st, pasted =>
    let st1 := scrollTo st scroll_y
    match getScreenshot d st1 with
    | (st2, .error e) => (st2, .error e)
    | (st2, .ok img) =>
      let rel_top := elem_top - scroll_y
      let crop_top := max 0 rel_top
      let crop_bottom := min viewport_h (rel_top + elem_height)
      if crop_bottom ≤ crop_top then
        tiledLoop d elem_left elem_top elem_width elem_height viewport_h rest st2 pasted
      else
        match pilCrop img elem_left crop_top (elem_left + elem_width) crop_bottom with
        | .error e => (st2, .error e)
        | .ok _cropImg =>
          tiledLoop d elem_left elem_top elem_width elem_height viewport_h rest st2 true

/-- The try-block of the single-shot path (lines 114-119): screenshot the
resized window, crop to the element rectangle, save, return out_path. -/
def singleShotBody (d : Driver) (out_path : String)
    (elem_left elem_top elem_width elem_height : ℤ)
    (st1 : BrowserState) : BrowserState × Except CaptureError String :=
  match getScreenshot d st1 with
  | (st2, .error e) => (st2, .error e)
  | (st2, .ok img) =>
    match pilCrop img elem_left elem_top (elem_left + elem_width) (elem_top + elem_height) with
    | .error e => (st2, .error e)
    | .ok cropImg =>
      match saveImage d st2 out_path cropImg with
      | (st3, .error e) => (st3, .error e)
      | (st3, .ok _) => (st3, .ok out_path)

/-- Single-shot path (lines 111-124): record the window size, resize, run
the try-block, and in the finally block restore the recorded size on
every exit, normal or exceptional. -/
def singleShot (d : Driver) (out_path : String)
    (elem_left elem_top elem_width elem_height doc_width doc_height : ℤ)
    (st : BrowserState) : BrowserState × Except CaptureError String :=
  let orig_w := st.windowWidth
  let orig_h := st.windowHeight
  let res := singleShotBody d out_path elem_left elem_top elem_width elem_height
    (setWindow st (max doc_width 800) (max doc_height 600))
  (setWindow res.1 orig_w orig_h, res.2)

/-- Tiled path (lines 126-166): generate tile offsets, allocate the
composite canvas, run the tile loop, raise StitchFailed when nothing was
pasted, otherwise save the canvas. -/
def tiledCapture (d : Driver) (out_path : String)
    (elem_left elem_top elem_width elem_height viewport_h : ℤ)
    (st : BrowserState) : BrowserState × Except CaptureError String :=
  match pilNew elem_width elem_height with
  | .error e => (st, .error e)
  | .ok stitched =>
    match tiledLoop d elem_left elem_top elem_width elem_height viewport_h
        (tilesAux elem_top elem_height viewport_h) st false with
    | (st1, .error e) => (st1, .error e)
    | (st1, .ok pasted) =>
      if pasted then
        match saveImage d st1 out_path stitched with
        | (st2, .error e) => (st2, .error e)
        | (st2, .ok _) => (st2, .ok out_path)
      else (st1, .error .stitchFailed)

/-- capture_element_full (lines 88-166): wait for the element (raising
elementNotFound on timeout before any further effect), query the
geometry once, derive the integer rectangle, then choose the single-shot
path when doc_height ≤ max_single_height and the tiled path otherwise.
The tiled path's `start_y % viewport_h` raises ZeroDivisionError when the
viewport height is 0 (modelled by the zeroDivision guard). -/
def capture_element_full (d : Driver) (out_path : String) (max_single_height : ℤ)
    (st : BrowserState) : BrowserState × Except CaptureError String :=
  if d.elementFound then
    let st1 := { st with trace := Event.queryMetrics :: Event.waitElement :: st.trace }
    let m := d.metrics
    if docHeightI m ≤ max_single_height then
      singleShot d out_path (elemLeft m) (elemTop m) (elemWidth m) (elemHeight m)
        (docWidthI m) (docHeightI m) st1
    else
      if viewportH m = 0 then (st1, .error .zeroDivision)
      else
        tiledCapture d out_path (elemLeft m) (elemTop m) (elemWidth m) (elemHeight m)
          (viewportH m) st1
  else ({ st with trace := Event.waitElement :: st.trace }, .error .elementNotFound)

/-! ## Concrete fixtures used by witnesses -/

/-- A small page whose document fits the single-shot threshold; the
element width is fractional (300.5 px). -/
def mSingle : Metrics := ⟨10, 50, mkRat 601 2, 200, 0, 500, 400, 900, 1366⟩

/-- The spec's tiled scenario: viewport height 900, element top 1200,
element height 2000, on a tall document. -/
def mTiled : Metrics := ⟨10, 1200, 500, 2000, 0, 20000, 800, 900, 1366⟩

/-- A driver whose calls all succeed, over the single-shot page. -/
def dSingle : Driver := ⟨true, mSingle, fun _ => true, fun _ => true⟩

/-- A driver whose calls all succeed, over the tiled page. -/
def dTiled : Driver := ⟨true, mTiled, fun _ => true, fun _ => true⟩

/-- A driver whose locator never resolves. -/
def dMissing : Driver := ⟨false, mSingle, fun _ => true, fun _ => true⟩

/-- Boundary scenario for claim C8: element height exactly one viewport
height (900), element top 1200 not aligned to the viewport grid. -/
def mBoundary : Metrics := ⟨0, 1200, 300, 900, 0, 20000, 800, 900, 1366⟩

/-- An initial browser state with an empty filesystem. -/
def st0 : BrowserState := ⟨1366, 900, 0, fun _ => none, 0, 0, []⟩

instance : DecidableEq (Except CaptureError String) := fun a b =>
  match a, b with
  | .ok x, .ok y =>
    if h : x = y then .isTrue (by rw [h]) else .isFalse (by simp [h])
  | .error x, .error y =>
    if h : x = y then .isTrue (by rw [h]) else .isFalse (by simp [h])
  | .ok _, .error _ => .isFalse (by simp)
  | .error _, .ok _ => .isFalse (by simp)

/-! ## Arithmetic lemmas about the tile loop -/

/-- For a positive viewport height the loop's anchor
max(0, T - T % V) is the largest multiple of V that is ≤ T (for T ≥ 0 the
max is inert). -/
theorem tileStart_eq {T V : ℤ} (hT : 0 ≤ T) (hV : 1 ≤ V) :
    tileStart T V = V * (T / V) := by
  have hfm : T.fmod V = T % V := Int.fmod_eq_emod T (by omega)
  have hdef : T % V = T - V * (T / V) := Int.emod_def T V
  have hnn : 0 ≤ V * (T / V) :=
    mul_nonneg (by omega) (Int.ediv_nonneg hT (by omega))
  unfold tileStart
  rw [hfm, hdef]
  omega

/-- The loop result does not depend on the fuel once the fuel is at least
end_y - y: the while loop stabilizes, i.e. terminates, whenever the
viewport height is positive. -/
theorem tilesLoop_stable {endY V : ℤ} (hV : 1 ≤ V) :
    ∀ fuel1 fuel2 y, (endY - y).toNat ≤ fuel1 → (endY - y).toNat ≤ fuel2 →
      tilesLoop fuel1 y endY V = tilesLoop fuel2 y endY V := by
  intro fuel1
  induction fuel1 with
  | zero =>
    intro fuel2 y h1 _
    have hy : endY ≤ y := by omega
    cases fuel2 with
    | zero => rfl
    | succ k => simp [tilesLoop, if_neg (not_lt.mpr hy)]
  | succ n ih =>
    intro fuel2 y h1 h2
    by_cases hy : y < endY
    · cases fuel2 with
      | zero => omega
      | succ k =>
        simp only [tilesLoop, if_pos hy]
        rw [ih k (y + V) (by omega) (by omega)]
    · cases fuel2 with
      | zero => simp [tilesLoop, if_neg hy]
      | succ k => simp [tilesLoop, if_neg hy]

/-- Membership in the loop output: exactly the offsets y, y+V, y+2V, ...
that are < end_y, provided the fuel is adequate. -/
theorem mem_tilesLoop {endY V t : ℤ} (hV : 1 ≤ V) :
    ∀ fuel y, (endY - y).toNat ≤ fuel →
      (t ∈ tilesLoop fuel y endY V ↔ (∃ n : ℕ, t = y + V * n) ∧ t < endY) := by
  intro fuel
  induction fuel with
  | zero =>
    intro y h
    simp only [tilesLoop, List.not_mem_nil, false_iff]
    rintro ⟨⟨n, rfl⟩, hlt⟩
    have : (0 : ℤ) ≤ V * n := mul_nonneg (by omega) (Int.natCast_nonneg n)
    omega
  | succ fuel ih =>
    intro y h
    simp only [tilesLoop]
    split_ifs with hy
    · rw [List.mem_cons, ih (y + V) (by omega)]
      constructor
      · rintro (rfl | ⟨⟨n, rfl⟩, hlt⟩)
        · exact ⟨⟨0, by ring⟩, hy⟩
        · exact ⟨⟨n + 1, by push_cast; ring⟩, hlt⟩
      · rintro ⟨⟨n, rfl⟩, hlt⟩
        cases n with
        | zero => left; simp
        | succ k => right; exact ⟨⟨k, by push_cast; ring⟩, hlt⟩
    · simp only [List.not_mem_nil, false_iff]
      rintro ⟨⟨n, rfl⟩, hlt⟩
      have : (0 : ℤ) ≤ V * n := mul_nonneg (by omega) (Int.natCast_nonneg n)
      omega

/-- Membership in the generated tile list, for a nonnegative element top
and a positive viewport height. -/
theorem mem_tilesAux {T H V t : ℤ} (hT : 0 ≤ T) (hV : 1 ≤ V) :
    t ∈ tilesAux T H V ↔ (∃ n : ℕ, t = V * (T / V) + V * n) ∧ t < T + H := by
  unfold tilesAux
  rw [mem_tilesLoop hV _ _ (le_refl _), tileStart_eq hT hV]

/-- Length of the loop output: the ceiling of (end_y - y) / V, provided
the fuel is adequate. -/
theorem len_tilesLoop {endY V : ℤ} (hV : 1 ≤ V) :
    ∀ fuel y, (endY - y).toNat ≤ fuel →
      (tilesLoop fuel y endY V).length = ((endY - y + V - 1) / V).toNat := by
  have hV0 : (0 : ℤ) < V := by omega
  have hzero : ∀ y : ℤ, endY ≤ y → ((endY - y + V - 1) / V).toNat = 0 := by
    intro y hy
    have hlt : endY - y + V - 1 < 1 * V := by omega
    have := (Int.ediv_lt_iff_lt_mul hV0).mpr hlt
    omega
  intro fuel
  induction fuel with
  | zero =>
    intro y h
    have hy : endY ≤ y := by omega
    simp [tilesLoop, hzero y hy]
  | succ fuel ih =>
    intro y h
    simp only [tilesLoop]
    split_ifs with hy
    · have hrec := ih (y + V) (by omega)
      simp only [List.length_cons, hrec]
      have ha : 0 ≤ endY - y - 1 := by omega
      have h1 : endY - y + V - 1 = (endY - y - 1) + 1 * V := by ring
      have h2 : endY - (y + V) + V - 1 = endY - y - 1 := by ring
      rw [h1, h2, Int.add_mul_ediv_right _ _ (by omega : V ≠ 0)]
      have hnn : 0 ≤ (endY - y - 1) / V := Int.ediv_nonneg ha (by omega)
      omega
    · simp [tilesLoop, hzero y (by omega)]

/-- The tile at offset t is skipped exactly when its visible slice is
empty. -/
theorem tileDest_eq_none {T H V t : ℤ} (hc : min V (T - t + H) ≤ max 0 (T - t)) :
    tileDest T H V t = none := by
  unfold tileDest
  exact if_pos hc

/-- The crop/paste interval of a non-skipped tile. -/
theorem tileDest_eq_some {T H V t : ℤ} (hc : ¬ min V (T - t + H) ≤ max 0 (T - t)) :
    tileDest T H V t = some (max 0 (t - T), min V (T - t + H) - max 0 (T - t)) := by
  unfold tileDest
  exact if_neg hc

/-- A row r of the canvas, with 0 ≤ r < H, is written by tile t exactly
when the absolute row r + T lies in the viewport window [t, t + V). -/
theorem coversRow_iff {T H V t r : ℤ} (hH : 1 ≤ H) (hV : 1 ≤ V)
    (hr0 : 0 ≤ r) (hrH : r < H) :
    coversRow T H V t r = true ↔ t ≤ r + T ∧ r + T < t + V := by
  unfold coversRow
  by_cases hc : min V (T - t + H) ≤ max 0 (T - t)
  · rw [tileDest_eq_none hc]
    simp only [Bool.false_eq_true, false_iff]
    omega
  · rw [tileDest_eq_some hc]
    simp only [decide_eq_true_eq]
    omega

/-- The destination interval of every non-skipped tile lies inside
[0, H): any written row r satisfies 0 ≤ r < H. -/
theorem coversRow_range {T H V t r : ℤ} (h : coversRow T H V t r = true) :
    0 ≤ r ∧ r < H := by
  unfold coversRow at h
  by_cases hc : min V (T - t + H) ≤ max 0 (T - t)
  · rw [tileDest_eq_none hc] at h
    simp at h
  · rw [tileDest_eq_some hc] at h
    simp only [decide_eq_true_eq] at h
    omega

/-- Existence half of the exact-cover invariant: every canvas row in
[0, H) is written by some generated tile. -/
theorem cover_exists {T H V r : ℤ} (hT : 0 ≤ T) (hH : 1 ≤ H) (hV : 1 ≤ V)
    (hr0 : 0 ≤ r) (hrH : r < H) :
    ∃ t, t ∈ tilesAux T H V ∧ coversRow T H V t r = true := by
  have hV0 : (0 : ℤ) < V := by omega
  set q : ℤ := (r + T) / V with hq
  have hqm : V * q + (r + T) % V = r + T := Int.ediv_add_emod (r + T) V
  have hs0 : 0 ≤ (r + T) % V := Int.emod_nonneg (r + T) (by omega)
  have hsV : (r + T) % V < V := Int.emod_lt_of_pos (r + T) hV0
  refine ⟨V * q, ?_, ?_⟩
  · rw [mem_tilesAux hT hV]
    have hmono : T / V ≤ q := Int.ediv_le_ediv hV0 (by omega)
    have hnn : 0 ≤ q - T / V := by omega
    refine ⟨⟨(q - T / V).toNat, ?_⟩, by omega⟩
    rw [Int.toNat_of_nonneg hnn]; ring
  · rw [coversRow_iff hH hV hr0 hrH]
    omega

/-- Uniqueness half of the exact-cover invariant: no two distinct
generated tiles write the same canvas row. -/
theorem cover_unique {T H V r t1 t2 : ℤ} (hT : 0 ≤ T) (hH : 1 ≤ H) (hV : 1 ≤ V)
    (hr0 : 0 ≤ r) (hrH : r < H)
    (h1 : t1 ∈ tilesAux T H V) (h2 : t2 ∈ tilesAux T H V)
    (hc1 : coversRow T H V t1 r = true) (hc2 : coversRow T H V t2 r = true) :
    t1 = t2 := by
  have hV0 : (0 : ℤ) < V := by omega
  rw [mem_tilesAux hT hV] at h1 h2
  obtain ⟨⟨⟨n1, rfl⟩, -⟩, ⟨⟨n2, rfl⟩, -⟩⟩ := And.intro h1 h2
  rw [coversRow_iff hH hV hr0 hrH] at hc1 hc2
  have e1 : (n1 : ℤ) < n2 + 1 := by
    have hm : V * (n1 : ℤ) < V * ((n2 : ℤ) + 1) := by nlinarith [hc1.1, hc2.2]
    exact lt_of_mul_lt_mul_left hm (by omega)
  have e2 : (n2 : ℤ) < n1 + 1 := by
    have hm : V * (n2 : ℤ) < V * ((n1 : ℤ) + 1) := by nlinarith [hc2.1, hc1.2]
    exact lt_of_mul_lt_mul_left hm (by omega)
  have : n1 = n2 := by omega
  rw [this]

/-! ## Step lemmas for the effectful primitives -/

theorem getScreenshot_ok {d : Driver} {st : BrowserState}
    (h : d.screenshotOk st.shotCount = true) :
    getScreenshot d st =
      ({ st with shotCount := st.shotCount + 1, trace := Event.screenshot :: st.trace },
        .ok ⟨st.windowWidth, st.windowHeight⟩) := by
  unfold getScreenshot
  rw [if_pos h]

theorem getScreenshot_err {d : Driver} {st : BrowserState}
    (h : ¬ d.screenshotOk st.shotCount = true) :
    getScreenshot d st =
      ({ st with shotCount := st.shotCount + 1, trace := Event.screenshot :: st.trace },
        .error .screenshotFailed) := by
  unfold getScreenshot
  rw [if_neg h]

theorem saveImage_ok {d : Driver} {st : BrowserState} {path : String} {img : Image}
    (h : d.saveOk st.saveCount = true) :
    saveImage d st path img =
      ({ st with saveCount := st.saveCount + 1, trace := Event.save path :: st.trace, files := fun p => if p = path then some img else st.files p }, .ok ()) := by
  unfold saveImage
  rw [if_pos h]

theorem saveImage_err {d : Driver} {st : BrowserState} {path : String} {img : Image}
    (h : ¬ d.saveOk st.saveCount = true) :
    saveImage d st path img =
      ({ st with saveCount := st.saveCount + 1, trace := Event.save path :: st.trace },
        .error .saveFailed) := by
  unfold saveImage
  rw [if_neg h]

theorem pilCrop_ok {img : Image} {l t r b : ℤ} (h1 : l ≤ r) (h2 : t ≤ b) :
    pilCrop img l t r b = .ok ⟨r - l, b - t⟩ := by
  unfold pilCrop
  rw [if_pos ⟨h1, h2⟩]

theorem pilNew_ok {w h : ℤ} (h1 : 0 ≤ w) (h2 : 0 ≤ h) :
    pilNew w h = .ok ⟨w, h⟩ := by
  unfold pilNew
  rw [if_pos ⟨h1, h2⟩]

/-! ## Invariants of the tile loop -/

/-- The tile loop never writes any file: the canvas is saved only after
the loop. -/
theorem tiledLoop_files {d : Driver} {L T W H V : ℤ} :
    ∀ (ts : List ℤ) (st : BrowserState) (pasted : Bool),
      (tiledLoop d L T W H V ts st pasted).1.files = st.files := by
  intro ts
  induction ts with
  | nil => intro st pasted; rfl
  | cons t rest ih =>
    intro st pasted
    simp only [tiledLoop]
    cases hs : d.screenshotOk (scrollTo st t).shotCount with
    | false =>
      rw [getScreenshot_err (by simp [hs])]
      rfl
    | true =>
      rw [getScreenshot_ok hs]
      simp only []
      split_ifs with hc
      · rw [ih]; rfl
      · unfold pilCrop
        split_ifs with hg
        · rw [ih]; rfl
        · rfl

/-- The tile loop itself never raises StitchFailed: its only errors come
from the screenshot and crop primitives. -/
theorem tiledLoop_no_stitch {d : Driver} {L T W H V : ℤ} :
    ∀ (ts : List ℤ) (st : BrowserState) (pasted : Bool),
      (tiledLoop d L T W H V ts st pasted).2 ≠ .error .stitchFailed := by
  intro ts
  induction ts with
  | nil => intro st pasted h; simp [tiledLoop] at h
  | cons t rest ih =>
    intro st pasted
    simp only [tiledLoop]
    cases hs : d.screenshotOk (scrollTo st t).shotCount with
    | false =>
      rw [getScreenshot_err (by simp [hs])]
      simp
    | true =>
      rw [getScreenshot_ok hs]
      simp only []
      split_ifs with hc
      · exact ih _ _
      · unfold pilCrop
        split_ifs with hg
        · exact ih _ _
        · simp

/-- When the tile loop finishes without an exception, the final
pasted_any flag is the initial one or-ed with "some tile had a non-empty
slice". -/
theorem tiledLoop_ok_flag {d : Driver} {L T W H V : ℤ} :
    ∀ (ts : List ℤ) (st : BrowserState) (pasted b : Bool),
      (tiledLoop d L T W H V ts st pasted).2 = .ok b →
      b = (pasted || ts.any fun t => (tileDest T H V t).isSome) := by
  intro ts
  induction ts with
  | nil =>
    intro st pasted b h
    simp only [tiledLoop] at h
    cases h
    simp
  | cons t rest ih =>
    intro st pasted b h
    simp only [tiledLoop] at h
    rcases hs : d.screenshotOk (scrollTo st t).shotCount with - | -
    · rw [getScreenshot_err (by simp [hs])] at h
      simp at h
    · rw [getScreenshot_ok hs] at h
      simp only [] at h
      by_cases hc : min V (T - t + H) ≤ max 0 (T - t)
      · rw [if_pos hc] at h
        have hb := ih _ _ _ h
        rw [hb, List.any_cons]
        have hnone : (tileDest T H V t).isSome = false := by
          rw [tileDest_eq_none hc]; rfl
        rw [hnone]
        simp
      · rw [if_neg hc] at h
        unfold pilCrop at h
        split_ifs at h with hg
        · have hb := ih _ _ _ h
          rw [hb, List.any_cons]
          have hsome : (tileDest T H V t).isSome = true := by
            rw [tileDest_eq_some hc]; rfl
          rw [hsome]
          simp

/-- When every screenshot succeeds and the element width is nonnegative,
the tile loop completes without an exception and returns the or of the
initial flag with the per-tile contribution flags. -/
theorem tiledLoop_success {d : Driver} {L T W H V : ℤ} (hW : 0 ≤ W)
    (hShot : ∀ n, d.screenshotOk n = true) :
    ∀ (ts : List ℤ) (st : BrowserState) (pasted : Bool),
      (tiledLoop d L T W H V ts st pasted).2 =
        .ok (pasted || ts.any fun t => (tileDest T H V t).isSome) := by
  intro ts
  induction ts with
  | nil => intro st pasted; simp [tiledLoop]
  | cons t rest ih =>
    intro st pasted
    simp only [tiledLoop]
    rw [getScreenshot_ok (hShot _)]
    simp only []
    by_cases hc : min V (T - t + H) ≤ max 0 (T - t)
    · rw [if_pos hc, ih]
      have hnone : (tileDest T H V t).isSome = false := by
        rw [tileDest_eq_none hc]; rfl
      rw [List.any_cons, hnone]
      simp
    · rw [if_neg hc, pilCrop_ok (by omega) (by omega)]
      rw [ih]
      have hsome : (tileDest T H V t).isSome = true := by
        rw [tileDest_eq_some hc]; rfl
      rw [List.any_cons, hsome]
      simp

/-! ## Invariants of the single-shot path -/

/-- Outcome of the try-block: when it returns normally the returned path
is out_path and the file saved there has dimensions exactly
(elem_width, elem_height); it never raises StitchFailed. -/
theorem singleShotBody_spec {d : Driver} {out : String} {L T W H : ℤ}
    {st1 : BrowserState} :
    (∀ p, (singleShotBody d out L T W H st1).2 = .ok p →
      p = out ∧ (singleShotBody d out L T W H st1).1.files out = some ⟨W, H⟩) ∧
    (singleShotBody d out L T W H st1).2 ≠ .error .stitchFailed := by
  unfold singleShotBody
  cases hs : d.screenshotOk st1.shotCount with
  | false =>
    rw [getScreenshot_err (by simp [hs])]
    simp
  | true =>
    rw [getScreenshot_ok hs]
    simp only [Bool.true_eq_false, ne_eq]
    by_cases hg : L ≤ L + W ∧ T ≤ T + H
    · rw [pilCrop_ok hg.1 hg.2]
      cases hsv : d.saveOk st1.saveCount with
      | false => simp [saveImage, hsv]
      | true =>
        simp only [saveImage, hsv, if_true, add_sub_cancel_left]
        constructor
        · intro p hp
          simp only [Except.ok.injEq] at hp
          subst hp
          simp
        · simp
    · rw [show pilCrop ⟨st1.windowWidth, st1.windowHeight⟩ L T (L + W) (T + H) =
        .error .invalidImageOp from if_neg hg]
      simp

/-- The single-shot path restores the window size recorded before its
resize on every exit, including the exits raised by the screenshot, crop
and save primitives (the try/finally of lines 113-124). -/
theorem singleShot_restores {d : Driver} {out : String} {L T W H dw dh : ℤ}
    {st : BrowserState} :
    (singleShot d out L T W H dw dh st).1.windowWidth = st.windowWidth ∧
    (singleShot d out L T W H dw dh st).1.windowHeight = st.windowHeight :=
  ⟨rfl, rfl⟩

/-- When the single-shot path returns normally, the returned path is
out_path and the file saved there is the crop, whose dimensions are
exactly (elem_width, elem_height). -/
theorem singleShot_ok {d : Driver} {out : String} {L T W H dw dh : ℤ}
    {st : BrowserState} {p : String}
    (h : (singleShot d out L T W H dw dh st).2 = .ok p) :
    p = out ∧ (singleShot d out L T W H dw dh st).1.files out = some ⟨W, H⟩ :=
  (singleShotBody_spec.1 p h : _)

/-- The single-shot path never raises StitchFailed. -/
theorem singleShot_no_stitch {d : Driver} {out : String} {L T W H dw dh : ℤ}
    {st : BrowserState} :
    (singleShot d out L T W H dw dh st).2 ≠ .error .stitchFailed :=
  (singleShotBody_spec.2 : _)

/-! ## Invariants of the tiled path -/

/-- When the tiled path returns normally, the returned path is out_path
and the file saved there is the composite canvas, whose dimensions are
exactly (elem_width, elem_height). -/
theorem tiledCapture_ok {d : Driver} {out : String} {L T W H V : ℤ}
    {st : BrowserState} {p : String}
    (h : (tiledCapture d out L T W H V st).2 = .ok p) :
    p = out ∧ (tiledCapture d out L T W H V st).1.files out = some ⟨W, H⟩ := by
  unfold tiledCapture at h ⊢
  by_cases hg : 0 ≤ W ∧ 0 ≤ H
  · rw [pilNew_ok hg.1 hg.2] at h ⊢
    rcases hres : tiledLoop d L T W H V (tilesAux T H V) st false with ⟨st1, r⟩
    rw [hres] at h
    cases r with
    | error e => simp at h
    | ok pasted =>
      cases pasted with
      | false => simp at h
      | true =>
        simp only [Except.ok.injEq] at h ⊢
        simp at h
        cases hsv : d.saveOk st1.saveCount with
        | false =>
          rw [saveImage_err (by simp [hsv])] at h
          simp at h
        | true =>
          rw [saveImage_ok (by simp [hsv])] at h
          simp at h
          subst h
          simp [saveImage, hsv]
  · rw [show pilNew W H = .error .invalidImageOp from if_neg hg] at h
    simp at h

/-- If some generated tile has a non-empty slice, the tiled path cannot
raise StitchFailed. -/
theorem tiledCapture_no_stitch {d : Driver} {out : String} {L T W H V : ℤ}
    {st : BrowserState}
    (hAny : (tilesAux T H V).any (fun t => (tileDest T H V t).isSome) = true) :
    (tiledCapture d out L T W H V st).2 ≠ .error .stitchFailed := by
  unfold tiledCapture
  by_cases hg : 0 ≤ W ∧ 0 ≤ H
  · rw [pilNew_ok hg.1 hg.2]
    rcases hres : tiledLoop d L T W H V (tilesAux T H V) st false with ⟨st1, r⟩
    cases r with
    | error e =>
      have hns := tiledLoop_no_stitch (d := d) (L := L) (T := T) (W := W) (H := H)
        (V := V) (tilesAux T H V) st false
      rw [hres] at hns
      simpa using hns
    | ok pasted =>
      have hflag := tiledLoop_ok_flag (d := d) (L := L) (W := W)
        (tilesAux T H V) st false pasted (by rw [hres])
      rw [Bool.false_or, hAny] at hflag
      subst hflag
      simp only []
      cases hsv : d.saveOk st1.saveCount with
      | false =>
        rw [saveImage_err (by simp [hsv])]
        simp
      | true =>
        rw [saveImage_ok (by simp [hsv])]
        simp
  · rw [show pilNew W H = .error .invalidImageOp from if_neg hg]
    simp

/-- Full characterization of the StitchFailed outcome of the tiled path
when the driver primitives succeed: StitchFailed is raised exactly when
no tile contributed a non-empty slice, in which case nothing is written;
otherwise the canvas is saved to out_path and out_path is returned. -/
theorem tiledCapture_stitch {d : Driver} {out : String} {L T W H V : ℤ}
    {st : BrowserState} (hW : 0 ≤ W) (hH : 0 ≤ H)
    (hShot : ∀ n, d.screenshotOk n = true) (hSave : ∀ n, d.saveOk n = true) :
    ((tiledCapture d out L T W H V st).2 = .error .stitchFailed ↔
      ∀ t ∈ tilesAux T H V, tileDest T H V t = none) ∧
    ((tiledCapture d out L T W H V st).2 = .error .stitchFailed →
      (tiledCapture d out L T W H V st).1.files = st.files) ∧
    ((∃ t ∈ tilesAux T H V, tileDest T H V t ≠ none) →
      (tiledCapture d out L T W H V st).2 = .ok out ∧
      (tiledCapture d out L T W H V st).1.files out = some ⟨W, H⟩) := by
  unfold tiledCapture
  rw [pilNew_ok hW hH]
  have hloop := tiledLoop_success (d := d) (L := L) (T := T) (H := H) (V := V)
    hW hShot (tilesAux T H V) st false
  have hfiles := tiledLoop_files (d := d) (L := L) (T := T) (W := W) (H := H)
    (V := V) (tilesAux T H V) st false
  rcases hres : tiledLoop d L T W H V (tilesAux T H V) st false with ⟨st1, r⟩
  rw [hres] at hloop hfiles
  simp only [Bool.false_or] at hloop
  rw [hloop]
  cases hAny : (tilesAux T H V).any (fun t => (tileDest T H V t).isSome) with
  | false =>
    simp only []
    refine ⟨⟨fun _ => ?_, fun _ => rfl⟩, fun _ => hfiles, fun hex => ?_⟩
    · intro t ht
      by_contra hne
      exact (List.any_eq_false.mp hAny t ht) (Option.ne_none_iff_isSome.mp hne)
    · obtain ⟨t, ht, hne⟩ := hex
      have : (tilesAux T H V).any (fun t => (tileDest T H V t).isSome) = true :=
        List.any_eq_true.mpr ⟨t, ht, Option.ne_none_iff_isSome.mp hne⟩
      rw [hAny] at this
      cases this
  | true =>
    simp only []
    rw [saveImage_ok (hSave _)]
    refine ⟨⟨fun hcontra => ?_, fun hall => ?_⟩, fun hcontra => ?_, fun _ => ⟨rfl, by simp⟩⟩
    · simp at hcontra
    · obtain ⟨t, ht, hsome⟩ := List.any_eq_true.mp hAny
      rw [hall t ht] at hsome
      cases hsome
    · simp at hcontra

/-! ## The claims -/

attribute [local semireducible] Rat.add


/-- Claim C1: every call to capture_element_full that completes
successfully (by either path) returns out_path, and the image saved at
out_path has dimensions exactly (ceil width, ceil height) of the
fractional bounding-rect values of the single geometry query. -/
theorem claim_C1 (d : Driver) (out : String) (maxH : ℤ) (st : BrowserState) (p : String)
    (h : (capture_element_full d out maxH st).2 = .ok p) :
    p = out ∧ ∃ img, (capture_element_full d out maxH st).1.files out = some img ∧
      img.width = ⌈d.metrics.width⌉ ∧ img.height = ⌈d.metrics.height⌉ := by
  unfold capture_element_full at h ⊢
  by_cases hFound : d.elementFound = true
  case neg =>
    rw [if_neg hFound] at h
    simp at h
  case pos =>
    rw [if_pos hFound] at h ⊢
    by_cases hDoc : docHeightI d.metrics ≤ maxH
    · rw [if_pos hDoc] at h ⊢
      obtain ⟨hp, hfile⟩ := singleShot_ok h
      exact ⟨hp, ⟨elemWidth d.metrics, elemHeight d.metrics⟩, hfile, rfl, rfl⟩
    · rw [if_neg hDoc] at h ⊢
      by_cases hV : viewportH d.metrics = 0
      · rw [if_pos hV] at h
        simp at h
      · rw [if_neg hV] at h ⊢
        obtain ⟨hp, hfile⟩ := tiledCapture_ok h
        exact ⟨hp, ⟨elemWidth d.metrics, elemHeight d.metrics⟩, hfile, rfl, rfl⟩

/-- Witness for C1: a concrete successful single-shot capture, with a
fractional element width of 300.5 ceiled to 301. -/
theorem claim_C1_witness :
    "out.png" = "out.png" ∧
    ∃ img, (capture_element_full dSingle "out.png" 15000 st0).1.files "out.png" = some img ∧
      img.width = ⌈dSingle.metrics.width⌉ ∧ img.height = ⌈dSingle.metrics.height⌉ :=
  claim_C1 dSingle "out.png" 15000 st0 "out.png" (by decide)

/-- Claim C2: for element top ≥ 0, element height ≥ 1 and viewport
height ≥ 1, the destination row intervals of the non-skipped tiles
partition the canvas rows [0, element_height): every such row is written
by exactly one tile, and no tile writes any row outside that range. -/
theorem claim_C2 (m : Metrics) (hT : 0 ≤ elemTop m) (hH : 1 ≤ elemHeight m)
    (hV : 1 ≤ viewportH m) :
    (∀ r : ℤ, 0 ≤ r → r < elemHeight m →
      ∃! t, t ∈ tiles m ∧ coversRow (elemTop m) (elemHeight m) (viewportH m) t r = true) ∧
    (∀ t r : ℤ, t ∈ tiles m →
      coversRow (elemTop m) (elemHeight m) (viewportH m) t r = true →
      0 ≤ r ∧ r < elemHeight m) := by
  constructor
  · intro r hr0 hrH
    obtain ⟨t, hmem, hcov⟩ := cover_exists hT hH hV hr0 hrH
    refine ⟨t, ⟨hmem, hcov⟩, ?_⟩
    rintro t2 ⟨hmem2, hcov2⟩
    exact cover_unique hT hH hV hr0 hrH hmem2 hmem hcov2 hcov
  · intro t r _ hcov
    exact coversRow_range hcov

/-- Witness for C2: in the spec's tiled scenario, canvas row 0 is
written by exactly one tile. -/
theorem claim_C2_witness :
    ∃! t, t ∈ tiles mTiled ∧
      coversRow (elemTop mTiled) (elemHeight mTiled) (viewportH mTiled) t 0 = true :=
  (claim_C2 mTiled (by decide) (by decide) (by decide)).1 0 (by decide) (by decide)

/-- Claim C3, counterexample: at viewport height 900, element top 1200,
element bottom 3200, the claimed sequence "up to and including the first
offset ≥ B" is [900, 1800, 2700, 3600], but the code generates
[900, 1800, 2700]: the first offset ≥ B is never emitted. -/
theorem claim_C3_counterexample :
    claimedTiles 900 1200 3200 = [900, 1800, 2700, 3600] ∧
    tilesAux 1200 2000 900 = [900, 1800, 2700] ∧
    tilesAux 1200 2000 900 ≠ claimedTiles 900 1200 3200 := by
  refine ⟨by decide, by decide, by decide⟩

/-- Claim C3 as amended: for V ≥ 1, T ≥ 0 and B > T, the generated tile
offsets are exactly the sequence starting at the largest multiple of V
that is ≤ T, stepping by exactly V, up to but excluding the first offset
that is ≥ B. -/
theorem claim_C3 (V T B : ℤ) (hV : 1 ≤ V) (hT : 0 ≤ T) (hB : T < B) :
    tilesAux T (B - T) V = specTiles V T B := by
  unfold tilesAux specTiles
  rw [tileStart_eq hT hV]
  have h1 : T + (B - T) = B := by ring
  rw [h1]

/-- Witness for the amended C3 at the spec's scenario. -/
theorem claim_C3_witness :
    tilesAux 1200 (3200 - 1200) 900 = specTiles 900 1200 3200 :=
  claim_C3 900 1200 3200 (by decide) (by decide) (by decide)

set_option maxRecDepth 40000 in
/-- Claim C4: for viewport height 900, element top 1200, element height
2000, the tiled path generates exactly the offsets [900, 1800, 2700],
and their destination row intervals cover canvas rows [0, 2000) with no
gaps. -/
theorem claim_C4 :
    tilesAux 1200 2000 900 = [900, 1800, 2700] ∧
    ((List.range 2000).all fun r =>
      (tilesAux 1200 2000 900).any fun t => coversRow 1200 2000 900 t (r : ℤ)) = true := by
  refine ⟨by decide, by decide⟩

/-- Claim C5: on the tiled path with successful driver primitives, the
call raises StitchFailed exactly when no generated tile has a non-empty
slice, and then writes nothing; otherwise the composite canvas is saved
to out_path and out_path is returned. -/
theorem claim_C5 (d : Driver) (out : String) (maxH : ℤ) (st : BrowserState)
    (hFound : d.elementFound = true) (hDoc : ¬ docHeightI d.metrics ≤ maxH)
    (hV : 1 ≤ viewportH d.metrics)
    (hw : 0 ≤ d.metrics.width) (hh : 0 ≤ d.metrics.height)
    (hShot : ∀ n, d.screenshotOk n = true) (hSave : ∀ n, d.saveOk n = true) :
    ((capture_element_full d out maxH st).2 = .error .stitchFailed ↔
      ∀ t ∈ tiles d.metrics,
        tileDest (elemTop d.metrics) (elemHeight d.metrics) (viewportH d.metrics) t = none) ∧
    ((capture_element_full d out maxH st).2 = .error .stitchFailed →
      (capture_element_full d out maxH st).1.files = st.files) ∧
    ((∃ t ∈ tiles d.metrics,
        tileDest (elemTop d.metrics) (elemHeight d.metrics) (viewportH d.metrics) t ≠ none) →
      (capture_element_full d out maxH st).2 = .ok out ∧
      (capture_element_full d out maxH st).1.files out =
        some ⟨elemWidth d.metrics, elemHeight d.metrics⟩) := by
  unfold capture_element_full
  rw [if_pos hFound, if_neg hDoc, if_neg (by omega : ¬ viewportH d.metrics = 0)]
  exact tiledCapture_stitch (Int.ceil_nonneg hw) (Int.ceil_nonneg hh) hShot hSave

/-- Witness for C5: in the spec's tiled scenario the first tile
contributes, so the capture succeeds and returns out_path. -/
theorem claim_C5_witness :
    (capture_element_full dTiled "out.png" 15000 st0).2 = .ok "out.png" ∧
    (capture_element_full dTiled "out.png" 15000 st0).1.files "out.png" =
      some ⟨elemWidth dTiled.metrics, elemHeight dTiled.metrics⟩ :=
  (claim_C5 dTiled "out.png" 15000 st0 rfl (by decide) (by decide) (by decide)
      (by decide) (fun _ => rfl) (fun _ => rfl)).2.2
    ⟨900, by decide, by decide⟩

/-- Claim C6: on the single-shot path (taken exactly when the document
height is at most max_single_height) the window size recorded before the
resize is restored in every outcome, including those in which the
screenshot, crop or save step raises. -/
theorem claim_C6 (d : Driver) (out : String) (maxH : ℤ) (st : BrowserState)
    (hFound : d.elementFound = true) (hDoc : docHeightI d.metrics ≤ maxH) :
    (capture_element_full d out maxH st).1.windowWidth = st.windowWidth ∧
    (capture_element_full d out maxH st).1.windowHeight = st.windowHeight := by
  unfold capture_element_full
  rw [if_pos hFound, if_pos hDoc]
  exact ⟨rfl, rfl⟩

/-- Witness for C6: a concrete single-shot capture leaves the window size
unchanged. -/
theorem claim_C6_witness :
    (capture_element_full dSingle "out.png" 15000 st0).1.windowWidth = st0.windowWidth ∧
    (capture_element_full dSingle "out.png" 15000 st0).1.windowHeight = st0.windowHeight :=
  claim_C6 dSingle "out.png" 15000 st0 rfl (by decide)

/-- Claim C7: when the locator never resolves within the timeout, the
call raises ElementNotFound before performing any geometry query, scroll,
capture or save: the only recorded event is the element wait and the file
system is unchanged. -/
theorem claim_C7 (d : Driver) (out : String) (maxH : ℤ) (st : BrowserState)
    (hFound : d.elementFound = false) :
    (capture_element_full d out maxH st).2 = .error .elementNotFound ∧
    (capture_element_full d out maxH st).1.files = st.files ∧
    (capture_element_full d out maxH st).1.trace = Event.waitElement :: st.trace := by
  unfold capture_element_full
  rw [if_neg (by simp [hFound])]
  exact ⟨rfl, rfl, rfl⟩

/-- Witness for C7: a concrete driver whose locator never matches. -/
theorem claim_C7_witness :
    (capture_element_full dMissing "out.png" 15000 st0).2 = .error .elementNotFound ∧
    (capture_element_full dMissing "out.png" 15000 st0).1.files = st0.files ∧
    (capture_element_full dMissing "out.png" 15000 st0).1.trace =
      Event.waitElement :: st0.trace :=
  claim_C7 dMissing "out.png" 15000 st0 rfl

set_option maxRecDepth 4000 in
/-- Claim C8: for an element exactly one viewport height tall, the tiled
path generates one tile when the element top is a multiple of the
viewport height and two tiles otherwise, and every canvas row is written
by some tile (zero blank rows). -/
theorem claim_C8 (m : Metrics) (hT : 0 ≤ elemTop m) (hV : 1 ≤ viewportH m)
    (hHV : elemHeight m = viewportH m) :
    (tiles m).length = (if viewportH m ∣ elemTop m then 1 else 2) ∧
    ∀ r : ℤ, 0 ≤ r → r < elemHeight m →
      (tiles m).any
        (fun t => coversRow (elemTop m) (elemHeight m) (viewportH m) t r) = true := by
  constructor
  · have hV0 : (0 : ℤ) < viewportH m := by omega
    have he : viewportH m * (elemTop m / viewportH m) + elemTop m % viewportH m = elemTop m :=
      Int.ediv_add_emod (elemTop m) (viewportH m)
    have hm0 : 0 ≤ elemTop m % viewportH m := Int.emod_nonneg (elemTop m) (by omega)
    have hmV : elemTop m % viewportH m < viewportH m := Int.emod_lt_of_pos (elemTop m) hV0
    unfold tiles tilesAux
    rw [hHV, len_tilesLoop hV _ _ (le_refl _), tileStart_eq hT hV]
    have h1 : elemTop m + viewportH m - viewportH m * (elemTop m / viewportH m) +
        viewportH m - 1 =
        (elemTop m % viewportH m + viewportH m - 1) + 1 * viewportH m := by linarith
    rw [h1, Int.add_mul_ediv_right _ _ (by omega : viewportH m ≠ 0)]
    rcases eq_or_ne (elemTop m % viewportH m) 0 with hs0 | hs0
    · rw [if_pos (Int.dvd_iff_emod_eq_zero.mpr hs0)]
      rw [hs0, Int.ediv_eq_zero_of_lt (by omega) (by omega)]
      rfl
    · rw [if_neg (fun hdvd => hs0 (Int.dvd_iff_emod_eq_zero.mp hdvd))]
      have h2 : elemTop m % viewportH m + viewportH m - 1 =
          (elemTop m % viewportH m - 1) + 1 * viewportH m := by linarith
      rw [h2, Int.add_mul_ediv_right _ _ (by omega : viewportH m ≠ 0),
        Int.ediv_eq_zero_of_lt (by omega) (by omega)]
      rfl
  · intro r hr0 hrH
    obtain ⟨t, hmem, hcov⟩ := cover_exists hT (by omega) hV hr0 hrH
    exact List.any_eq_true.mpr ⟨t, hmem, hcov⟩

/-- Witness for C8: viewport 900 and element top 1200 (not aligned, so
two tiles), element height 900. -/
theorem claim_C8_witness :
    (tiles mBoundary).length = (if viewportH mBoundary ∣ elemTop mBoundary then 1 else 2) ∧
    ∀ r : ℤ, 0 ≤ r → r < elemHeight mBoundary →
      (tiles mBoundary).any
        (fun t => coversRow (elemTop mBoundary) (elemHeight mBoundary)
          (viewportH mBoundary) t r) = true :=
  claim_C8 mBoundary (by decide) (by decide) (by decide)

/-- Claim C9: for element top ≥ 0, element height ≥ 1 and viewport
height ≥ 1, the first generated tile exists and has a non-empty slice, a
normally-completing tile loop always ends with pasted_any = true, and
capture_element_full can never raise StitchFailed. -/
theorem claim_C9 (d : Driver) (hT : 0 ≤ elemTop d.metrics)
    (hH : 1 ≤ elemHeight d.metrics) (hV : 1 ≤ viewportH d.metrics) :
    (tiles d.metrics).head? =
      some (tileStart (elemTop d.metrics) (viewportH d.metrics)) ∧
    (tileDest (elemTop d.metrics) (elemHeight d.metrics) (viewportH d.metrics)
      (tileStart (elemTop d.metrics) (viewportH d.metrics))).isSome = true ∧
    (∀ (st : BrowserState) (pasted b : Bool),
      (tiledLoop d (elemLeft d.metrics) (elemTop d.metrics) (elemWidth d.metrics)
        (elemHeight d.metrics) (viewportH d.metrics) (tiles d.metrics) st pasted).2 =
        .ok b → b = true) ∧
    (∀ (out : String) (maxH : ℤ) (st : BrowserState),
      (capture_element_full d out maxH st).2 ≠ .error .stitchFailed) := by
  have hV0 : (0 : ℤ) < viewportH d.metrics := by omega
  have he : viewportH d.metrics * (elemTop d.metrics / viewportH d.metrics) +
      elemTop d.metrics % viewportH d.metrics = elemTop d.metrics :=
    Int.ediv_add_emod (elemTop d.metrics) (viewportH d.metrics)
  have hm0 : 0 ≤ elemTop d.metrics % viewportH d.metrics :=
    Int.emod_nonneg (elemTop d.metrics) (by omega)
  have hmV : elemTop d.metrics % viewportH d.metrics < viewportH d.metrics :=
    Int.emod_lt_of_pos (elemTop d.metrics) hV0
  have hbridge := tileStart_eq hT hV
  have hsub : elemTop d.metrics - tileStart (elemTop d.metrics) (viewportH d.metrics) =
      elemTop d.metrics % viewportH d.metrics := by
    rw [hbridge]; linarith
  have hsle : tileStart (elemTop d.metrics) (viewportH d.metrics) ≤ elemTop d.metrics := by
    omega
  have hlt : tileStart (elemTop d.metrics) (viewportH d.metrics) <
      elemTop d.metrics + elemHeight d.metrics := by omega
  obtain ⟨k, hk⟩ : ∃ k, (elemTop d.metrics + elemHeight d.metrics -
      tileStart (elemTop d.metrics) (viewportH d.metrics)).toNat = k + 1 := by
    refine ⟨(elemTop d.metrics + elemHeight d.metrics -
      tileStart (elemTop d.metrics) (viewportH d.metrics)).toNat - 1, ?_⟩
    omega
  have hshape : tiles d.metrics =
      tileStart (elemTop d.metrics) (viewportH d.metrics) ::
        tilesLoop k (tileStart (elemTop d.metrics) (viewportH d.metrics) + viewportH d.metrics)
          (elemTop d.metrics + elemHeight d.metrics) (viewportH d.metrics) := by
    unfold tiles tilesAux
    rw [hk]
    simp [tilesLoop, if_pos hlt]
  have hsome : (tileDest (elemTop d.metrics) (elemHeight d.metrics) (viewportH d.metrics)
      (tileStart (elemTop d.metrics) (viewportH d.metrics))).isSome = true := by
    rw [tileDest_eq_some (by omega)]
    rfl
  have hAny : (tilesAux (elemTop d.metrics) (elemHeight d.metrics) (viewportH d.metrics)).any
      (fun t => (tileDest (elemTop d.metrics) (elemHeight d.metrics)
        (viewportH d.metrics) t).isSome) = true := by
    refine List.any_eq_true.mpr ⟨tileStart (elemTop d.metrics) (viewportH d.metrics), ?_, hsome⟩
    rw [show tilesAux (elemTop d.metrics) (elemHeight d.metrics) (viewportH d.metrics) =
      tiles d.metrics from rfl, hshape]
    exact List.mem_cons_self _ _
  refine ⟨by rw [hshape]; rfl, hsome, ?_, ?_⟩
  · intro st pasted b hb
    have hflag := tiledLoop_ok_flag (d := d) (L := elemLeft d.metrics)
      (W := elemWidth d.metrics) (tiles d.metrics) st pasted b hb
    rw [hflag]
    rw [show tiles d.metrics =
      tilesAux (elemTop d.metrics) (elemHeight d.metrics) (viewportH d.metrics) from rfl, hAny]
    simp
  · intro out maxH st
    unfold capture_element_full
    by_cases hFound : d.elementFound = true
    case neg =>
      rw [if_neg hFound]
      simp
    case pos =>
      rw [if_pos hFound]
      by_cases hDoc : docHeightI d.metrics ≤ maxH
      · rw [if_pos hDoc]
        exact singleShot_no_stitch
      · rw [if_neg hDoc, if_neg (by omega : ¬ viewportH d.metrics = 0)]
        exact tiledCapture_no_stitch hAny

/-- Witness for C9: first tile of the spec's tiled scenario. -/
theorem claim_C9_witness :
    (tiles dTiled.metrics).head? =
      some (tileStart (elemTop dTiled.metrics) (viewportH dTiled.metrics)) :=
  (claim_C9 dTiled (by decide) (by decide) (by decide)).1

/-- Claim C10: for viewport height ≥ 1 the tile-generation loop
terminates: its result is already stable at the canonical fuel, so any
larger fuel yields the same tile list. -/
theorem claim_C10 (m : Metrics) (hV : 1 ≤ viewportH m) :
    ∀ fuel : ℕ,
      (elemTop m + elemHeight m - tileStart (elemTop m) (viewportH m)).toNat ≤ fuel →
      tilesLoop fuel (tileStart (elemTop m) (viewportH m))
        (elemTop m + elemHeight m) (viewportH m) = tiles m := by
  intro fuel hfuel
  exact tilesLoop_stable hV fuel _ _ hfuel (le_refl _)

/-- Witness for C10: with far more fuel than needed, the loop output is
unchanged on the spec's tiled scenario. -/
theorem claim_C10_witness :
    tilesLoop 5000 (tileStart (elemTop mTiled) (viewportH mTiled))
      (elemTop mTiled + elemHeight mTiled) (viewportH mTiled) = tiles mTiled :=
  claim_C10 mTiled (by decide) 5000 (by decide)

end TradingView
